import Mathlib

/-!
Verification of the Wahoo MCP OAuth token lifecycle.

Shallow embedding of `src/token_store.py` (`TokenData`, `TokenStore`) and the
authenticated-request / refresh / retry logic of `src/server.py`
(`WahooAPIClient._refresh_access_token`, `_ensure_valid_token`,
`list_workouts`).

Modelling conventions:
- Unix timestamps (Python `float` from `time.time()`) are modelled as `Int`;
  no claim depends on fractional seconds.
- Python `Optional[str]` fields are `Option String`; Python truthiness of an
  optional string (`if not x`, which is falsy for both `None` and `""`) is the
  `truthy` helper below.
- JSON persisted to the token file is modelled by `JsonVal` / `Dict`
  association lists so that unknown keys and invalid content can be expressed.
- Network I/O is modelled by an `Oracle` supplying the outcome of the n-th
  refresh POST and the status of the n-th API GET; the calls actually issued
  are recorded in an event trace on the client state, so call counts are
  observable.
-/

namespace WahooMcp

/-- Python truthiness of an optional string: `None` and `""` are falsy. -/
def truthy : Option String → Bool
  | none => false
  | some s => !s.isEmpty

/-- JSON values as far as the token file needs them.  Nested arrays/objects
never occur in serialized token data; unknown keys may carry any of these. -/
inductive JsonVal where
  | str (s : String)
  | num (n : Int)
  | boolVal (b : Bool)
  | null
deriving DecidableEq, Repr

/-- A JSON object, as an association list (first occurrence of a key wins,
matching a Python dict which cannot hold duplicates). -/
abbrev Dict := List (String × JsonVal)

/-- First-match key lookup in a JSON object. -/
def dictLookup (k : String) : Dict → Option JsonVal
  | [] => none
  | (k', v) :: rest => if k = k' then some v else dictLookup k rest

/-- Dataclass `TokenData` from `src/token_store.py`: container for OAuth token data. -/
structure TokenData where
  access_token : String
  refresh_token : Option String := none
  code_verifier : Option String := none
  expires_at : Option Int := none
  token_type : String := "Bearer"
deriving DecidableEq, Repr

/-- Method `TokenData.is_expired`.  The source guard is `if not self.expires_at`,
which is Python truthiness: it returns `False` both when `expires_at` is
`None` and when it equals `0.0`.  Otherwise the result is
`time.time() >= expires_at - buffer_seconds`; `now` stands for
`time.time()`. -/
def TokenData.is_expired (t : TokenData) (now : Int) (buffer_seconds : Int := 300) : Bool :=
  match t.expires_at with
  | none => false
  | some e => if e = 0 then false else decide (now ≥ e - buffer_seconds)

/-- Method `TokenData.to_dict`: the `asdict` field order with `None`-valued entries
omitted.  `access_token` and `token_type` are `str` fields of the dataclass
and are always present. -/
def TokenData.to_dict (t : TokenData) : Dict :=
  [("access_token", JsonVal.str t.access_token)]
    ++ (match t.refresh_token with
        | some s => [("refresh_token", JsonVal.str s)]
        | none => [])
    ++ (match t.code_verifier with
        | some s => [("code_verifier", JsonVal.str s)]
        | none => [])
    ++ (match t.expires_at with
        | some e => [("expires_at", JsonVal.num e)]
        | none => [])
    ++ [("token_type", JsonVal.str t.token_type)]

/-- The dataclass field names (`cls.__annotations__`), used by `from_dict` to
drop unknown keys. -/
def knownKey (k : String) : Bool :=
  k = "access_token" || k = "refresh_token" || k = "code_verifier"
    || k = "expires_at" || k = "token_type"

/-- Method `TokenData.from_dict`: keeps only keys in `cls.__annotations__` and calls
the dataclass constructor; a missing key means the field default.  The typed
model treats a known key carrying a value of the wrong JSON type as a
construction failure (`none`); Python would instead build an ill-typed record
there — no claim touches that case.  A JSON `null` under an optional field is
the Python `None` argument, i.e. the field is absent. -/
def TokenData.from_dict (d : Dict) : Option TokenData :=
  match dictLookup "access_token" d with
  | some (JsonVal.str a) =>
    let rt? : Option (Option String) :=
      match dictLookup "refresh_token" d with
      | none => some none
      | some (JsonVal.str s) => some (some s)
      | some JsonVal.null => some none
      | some _ => none
    let cv? : Option (Option String) :=
      match dictLookup "code_verifier" d with
      | none => some none
      | some (JsonVal.str s) => some (some s)
      | some JsonVal.null => some none
      | some _ => none
    let ea? : Option (Option Int) :=
      match dictLookup "expires_at" d with
      | none => some none
      | some (JsonVal.num e) => some (some e)
      | some JsonVal.null => some none
      | some _ => none
    let tt? : Option String :=
      match dictLookup "token_type" d with
      | none => some "Bearer"
      | some (JsonVal.str s) => some s
      | some _ => none
    match rt?, cv?, ea?, tt? with
    | some rt, some cv, some ea, some tt =>
      some { access_token := a, refresh_token := rt, code_verifier := cv,
             expires_at := ea, token_type := tt }
    | _, _, _, _ => none
  | _ => none

/-- Content of the token file when it exists.  `badJson` covers both content
that fails to parse as JSON and parsed JSON that is not an object: in either
case the `try` block in `load` catches the raised exception. -/
inductive FileContent where
  | jsonDict (d : Dict)
  | badJson
deriving DecidableEq, Repr

/-- State owned by one `TokenStore`: the backing file (absent when the file
does not exist) and the in-memory cached record (`self._token_data`). -/
structure StoreState where
  file : Option FileContent := none
  cache : Option TokenData := none
deriving DecidableEq, Repr

/-- Method `TokenStore.load`: read and deserialize the file, caching the record on
success; a missing file, invalid JSON, or a failing `from_dict` all log and
yield `none` without touching the cache (the exception is raised before the
`self._token_data` assignment completes). -/
def TokenStore.load (st : StoreState) : StoreState × Option TokenData :=
  match st.file with
  | none => (st, none)
  | some (FileContent.jsonDict d) =>
    match TokenData.from_dict d with
    | some t => ({ st with cache := some t }, some t)
    | none => (st, none)
  | some FileContent.badJson => (st, none)

/-- Method `TokenStore.save`: set the cache unconditionally and write the sparse
serialization.  File-system failures (mkdir/write/chmod) are logged and
swallowed in the source; the model has no failing file system, so the write
always lands. -/
def TokenStore.save (st : StoreState) (t : TokenData) : StoreState :=
  { st with cache := some t, file := some (FileContent.jsonDict t.to_dict) }

/-- An OAuth token-endpoint JSON response, restricted to the keys the code
reads (plus `code_verifier`, which a response map may carry even though
`update_from_response` never reads it).  `access_token` is required — the
source indexes `response_data["access_token"]` unconditionally.  An `Option`
field being `none` models the key being absent from the map. -/
structure OAuthResponse where
  access_token : String
  refresh_token : Option String := none
  code_verifier : Option String := none
  expires_in : Option Int := none
  token_type : Option String := none
deriving DecidableEq, Repr

/-- Method `TokenStore.update_from_response`: build a new record from the raw
response, falling back to the cached record (`self._token_data`, which may be
`None`) for `refresh_token` and `code_verifier`, then `save` it.  `now`
stands for the single `time.time()` call. -/
def TokenStore.update_from_response (st : StoreState) (now : Int) (resp : OAuthResponse) :
    StoreState × TokenData :=
  let expires_at : Option Int :=
    match resp.expires_in with
    | some e => some (now + e)
    | none => none
  let token_data : TokenData :=
    { access_token := resp.access_token
      refresh_token :=
        match resp.refresh_token with
        | some r => some r
        | none =>
          match st.cache with
          | some c => c.refresh_token
          | none => none
      code_verifier :=
        match st.cache with
        | some c => c.code_verifier
        | none => none
      expires_at := expires_at
      token_type := resp.token_type.getD "Bearer" }
  (TokenStore.save st token_data, token_data)

/-! The API client (`WahooAPIClient` in `src/server.py`). -/

/-- Environment variables read during refresh: `WAHOO_CLIENT_ID` and
`WAHOO_CLIENT_SECRET` (`os.getenv` yields `None` when unset).  "Configured"
throughout means the Python truthiness check the source performs: set to a
non-empty string. -/
structure Env where
  client_id : Option String := none
  client_secret : Option String := none
deriving DecidableEq, Repr

/-- The form body of a refresh POST (`data` dict in
`_refresh_access_token`).  `client_secret` / `code_verifier` are present only
when their branch of the supplement policy added them. -/
structure RefreshBody where
  client_id : String
  grant_type : String
  refresh_token : String
  client_secret : Option String := none
  code_verifier : Option String := none
deriving DecidableEq, Repr

/-- Outcome of one refresh POST as the code observes it: a 200 whose JSON
body parsed (`ok`), a non-200 status (`httpErr`), or an exception raised
during the POST or while parsing the body (`exn`). -/
inductive RefreshOutcome where
  | ok (body : OAuthResponse)
  | httpErr (status : Nat)
  | exn
deriving Repr

/-- An HTTP response to an API GET: its status and the index of the GET that
produced it (so "the original 401 response" is distinguishable from a
retried one). -/
structure HttpResp where
  status : Nat
  idx : Nat
deriving DecidableEq, Repr

/-- Network oracle: outcome of the n-th refresh POST and status of the n-th
API GET issued by this client (0-indexed). -/
structure Oracle where
  refreshResults : Nat → RefreshOutcome
  getStatus : Nat → Nat

/-- Query parameters of a `/v1/workouts` GET, as built by `list_workouts`
(`created_after` / `created_before` are only added when the corresponding
argument is truthy). -/
structure WorkoutParams where
  page : Int
  per_page : Int
  created_after : Option String := none
  created_before : Option String := none
deriving DecidableEq, Repr

/-- One observable network call made by the client. -/
inductive Event where
  | refreshPost (body : RefreshBody)
  | apiGet (bearer : String) (params : WorkoutParams)
deriving DecidableEq, Repr

def countRefreshPosts (tr : List Event) : Nat :=
  tr.countP fun e => match e with | Event.refreshPost _ => true | _ => false

def countApiGets (tr : List Event) : Nat :=
  tr.countP fun e => match e with | Event.apiGet _ _ => true | _ => false

/-- Mutable state of one `WahooAPIClient`: `self.token_data`, the token
store, the `Authorization` bearer value currently in `self.client.headers`,
and the trace of network calls made so far. -/
structure ClientState where
  token_data : Option TokenData
  store : StoreState
  headerToken : String
  trace : List Event
deriving DecidableEq, Repr

/-- The `data` dict of the refresh POST once the preconditions passed:
base entries `client_id`, `grant_type`, `refresh_token`, then the
credential-supplement branches of the source in order — `if client_secret:`
attach it, `elif self.token_data.code_verifier:` attach that, `else` attach
neither (only a warning is logged). -/
def refreshBodyOf (cid rt : String) (env : Env) (td : TokenData) : RefreshBody :=
  { client_id := cid, grant_type := "refresh_token", refresh_token := rt,
    client_secret :=
      if truthy env.client_secret then env.client_secret else none,
    code_verifier :=
      if truthy env.client_secret then none
      else if truthy td.code_verifier then td.code_verifier else none }

/-- Method `WahooAPIClient._refresh_access_token`.  Returns the boolean the source
returns, plus the updated client state.  The guard
`if not self.token_data or not self.token_data.refresh_token` and
`if not client_id` are Python truthiness checks; the credential-supplement
`if client_secret: ... elif self.token_data.code_verifier: ... else: warn`
likewise.  All failure paths return `false` — the `try` block converts the
POST/parse exception (`RefreshOutcome.exn`) into `false` as well, so nothing
escapes this boundary. -/
def refresh_access_token (env : Env) (oracle : Oracle) (st : ClientState) (now : Int) :
    Bool × ClientState :=
  match st.token_data with
  | none => (false, st)
  | some td =>
    match td.refresh_token with
    | none => (false, st)
    | some rt =>
      if rt.isEmpty then (false, st)
      else
        match env.client_id with
        | none => (false, st)
        | some cid =>
          if cid.isEmpty then (false, st)
          else
            let body := refreshBodyOf cid rt env td
            let i := countRefreshPosts st.trace
            let st' : ClientState := { st with trace := st.trace ++ [Event.refreshPost body] }
            match oracle.refreshResults i with
            | RefreshOutcome.ok resp =>
              let upd := TokenStore.update_from_response st'.store now resp
              (true, { st' with token_data := some upd.2, store := upd.1,
                                headerToken := upd.2.access_token })
            | RefreshOutcome.httpErr _ => (false, st')
            | RefreshOutcome.exn => (false, st')

/-- Method `WahooAPIClient._ensure_valid_token`: `false` with no action when no
token is held; refresh when `is_expired()` (default 300-second buffer);
otherwise `true` with no action. -/
def ensure_valid_token (env : Env) (oracle : Oracle) (st : ClientState) (now : Int) :
    Bool × ClientState :=
  match st.token_data with
  | none => (false, st)
  | some td =>
    if td.is_expired now 300 then refresh_access_token env oracle st now
    else (true, st)

/-- Errors a `list_workouts` call can raise.  Both are `httpx.HTTPStatusError`
in the source; `authRefreshFailed` is the explicitly raised one ("Authentication
failed and token refresh was unsuccessful") carrying the original 401
response, `httpStatus` is the one `raise_for_status` raises on the response
it is finally called on. -/
inductive ApiError where
  | authRefreshFailed (original : HttpResp)
  | httpStatus (resp : HttpResp)
deriving DecidableEq, Repr

/-- Httpx `response.raise_for_status()`: pass 2xx through, raise otherwise. -/
def raiseForStatus (r : HttpResp) : Except ApiError HttpResp :=
  if 200 ≤ r.status ∧ r.status < 300 then Except.ok r
  else Except.error (ApiError.httpStatus r)

/-- Parameter dict built by `list_workouts`: dates added only when truthy. -/
def buildWorkoutParams (page per_page : Int) (start_date end_date : Option String) :
    WorkoutParams :=
  { page := page, per_page := per_page,
    created_after := if truthy start_date then start_date else none,
    created_before := if truthy end_date then end_date else none }

/-- One `self.client.get("/v1/workouts", params=params)` call: records the
event (with the bearer header currently on the client) and asks the oracle
for the status of this GET. -/
def doGet (oracle : Oracle) (st : ClientState) (params : WorkoutParams) :
    HttpResp × ClientState :=
  let i := countApiGets st.trace
  (⟨oracle.getStatus i, i⟩, { st with trace := st.trace ++ [Event.apiGet st.headerToken params] })

/-- Method `WahooAPIClient.list_workouts`, up to the point where the response body
is parsed into workout objects (body parsing is out of scope; a successful
call yields the final response).  Faithful control flow: the boolean result
of `_ensure_valid_token` is discarded (line 590 of `server.py`), the GET is
issued, a 401 triggers one refresh, a successful refresh triggers exactly
one retry with the same `params`, a failed refresh raises an error wrapping
the original response, and `raise_for_status` runs on whichever response the
flow ends with. -/
def list_workouts (env : Env) (oracle : Oracle) (st : ClientState) (now : Int)
    (page per_page : Int) (start_date end_date : Option String) :
    Except ApiError HttpResp × ClientState :=
  let st1 := (ensure_valid_token env oracle st now).2
  let params := buildWorkoutParams page per_page start_date end_date
  let g0 := doGet oracle st1 params
  if g0.1.status = 401 then
    match refresh_access_token env oracle g0.2 now with
    | (true, st3) =>
      let g1 := doGet oracle st3 params
      (raiseForStatus g1.1, g1.2)
    | (false, st3) => (Except.error (ApiError.authRefreshFailed g0.1), st3)
  else (raiseForStatus g0.1, g0.2)

/-! Helper lemmas. -/

/-- Deserializing a sparse serialization recovers the record exactly. -/
theorem from_dict_to_dict (t : TokenData) : TokenData.from_dict t.to_dict = some t := by
  obtain ⟨a, rt, cv, ea, tt⟩ := t
  cases rt <;> cases cv <;> cases ea <;>
    simp [TokenData.to_dict, TokenData.from_dict, dictLookup]

/-- Lookup of a known key is unchanged by dropping the unknown keys. -/
theorem dictLookup_filter_known (k : String) (hk : knownKey k = true) :
    ∀ d : Dict, dictLookup k (d.filter fun kv => knownKey kv.1) = dictLookup k d := by
  intro d
  induction d with
  | nil => rfl
  | cons kv rest ih =>
    obtain ⟨k', v⟩ := kv
    by_cases hkk : knownKey k' = true
    · by_cases hne : k = k' <;> simp [List.filter, hkk, dictLookup, hne, ih]
    · have hne : k ≠ k' := fun h => hkk (h ▸ hk)
      simp [List.filter, hkk, dictLookup, hne, ih]

/-! Theorems for the claims about the token store. -/

/-- Fixture: the cached record of the worked example in the spec. -/
def cachedRec : TokenData :=
  { access_token := "A0", refresh_token := some "R0", code_verifier := some "V0" }

/-- Fixture: a store whose in-memory cache holds `cachedRec`. -/
def cachedStore : StoreState := { cache := some cachedRec }

/-- Fixture: an OAuth response supplying only `access_token` and `expires_in`. -/
def specResp : OAuthResponse := { access_token := "A", expires_in := some 7200 }

/-- Fixture: an OAuth response that supplies `refresh_token` and even a
`code_verifier` entry. -/
def verifierResp : OAuthResponse :=
  { access_token := "A1", refresh_token := some "R1", code_verifier := some "X" }

/-- C4: with `expires_at` present and equal to `0` and `now = 300`,
`buffer = 0`, the code returns `false` although `now ≥ expires_at - buffer`
holds, because the guard `if not self.expires_at` treats the float `0.0` as
absent — refuting the claim that presence always yields the comparison. -/
theorem C4_counterexample :
    ({ access_token := "A", expires_at := some 0 } : TokenData).expires_at = some 0
    ∧ (0 : Int) - 0 ≤ 300
    ∧ ({ access_token := "A", expires_at := some 0 } : TokenData).is_expired 300 0 = false := by
  decide

/-- C4 (amended): `is_expired` returns `false` when `expires_at` is absent
or equal to zero (zero is falsy under the Python emptiness check the source
uses); when `expires_at` is present and nonzero it returns `true` iff
`now ≥ expires_at - buffer`. -/
theorem C4_is_expired_amended (t : TokenData) (now buffer : Int) :
    (t.expires_at = none → t.is_expired now buffer = false)
    ∧ (t.expires_at = some 0 → t.is_expired now buffer = false)
    ∧ (∀ e : Int, t.expires_at = some e → e ≠ 0 →
        (t.is_expired now buffer = true ↔ now ≥ e - buffer)) := by
  refine ⟨fun h => ?_, fun h => ?_, fun e h he => ?_⟩
  · simp [TokenData.is_expired, h]
  · simp [TokenData.is_expired, h]
  · simp [TokenData.is_expired, h, he]

/-- C4 witness: the spec example `expires_at = now + 200` with `now = 1000`:
`is_expired(100)` is `false` and `is_expired(300)` is `true`. -/
theorem C4_is_expired_amended_witness :
    ({ access_token := "A", expires_at := some 1200 } : TokenData).expires_at = some 1200
    ∧ (1200 : Int) ≠ 0
    ∧ (({ access_token := "A", expires_at := some 1200 } : TokenData).is_expired 1000 100 = true
        ↔ (1000 : Int) ≥ 1200 - 100)
    ∧ (({ access_token := "A", expires_at := some 1200 } : TokenData).is_expired 1000 300 = true
        ↔ (1000 : Int) ≥ 1200 - 300)
    ∧ ({ access_token := "A", expires_at := some 1200 } : TokenData).is_expired 1000 100 = false
    ∧ ({ access_token := "A", expires_at := some 1200 } : TokenData).is_expired 1000 300 = true :=
  ⟨rfl, by decide,
   (C4_is_expired_amended _ 1000 100).2.2 1200 rfl (by decide),
   (C4_is_expired_amended _ 1000 300).2.2 1200 rfl (by decide),
   by decide, by decide⟩

/-- C2: with a cached record present, `update_from_response` takes
`access_token` from the response, `refresh_token` from the response when
present else from the cache, `code_verifier` always from the cache,
`expires_at = now + expires_in` when `expires_in` is present else absent,
`token_type` from the response defaulting to Bearer, and saves the result
(cache and file both updated to the new record). -/
theorem C2_update_from_response (st : StoreState) (c : TokenData) (now : Int)
    (resp : OAuthResponse) (h : st.cache = some c) :
    ((TokenStore.update_from_response st now resp).2.access_token = resp.access_token)
    ∧ ((TokenStore.update_from_response st now resp).2.refresh_token
        = match resp.refresh_token with
          | some v => some v
          | none => c.refresh_token)
    ∧ ((TokenStore.update_from_response st now resp).2.code_verifier = c.code_verifier)
    ∧ ((TokenStore.update_from_response st now resp).2.expires_at
        = match resp.expires_in with
          | some e => some (now + e)
          | none => none)
    ∧ ((TokenStore.update_from_response st now resp).2.token_type
        = resp.token_type.getD "Bearer")
    ∧ ((TokenStore.update_from_response st now resp).1
        = { st with
              cache := some (TokenStore.update_from_response st now resp).2,
              file := some (FileContent.jsonDict
                (TokenStore.update_from_response st now resp).2.to_dict) }) := by
  simp [TokenStore.update_from_response, TokenStore.save, h]

/-- C2 witness: the spec example — response `{access_token: "A",
expires_in: 7200}` against a cache holding refresh token R0 and verifier V0,
at `now = 100`. -/
theorem C2_update_from_response_witness :
    cachedStore.cache = some cachedRec
    ∧ ((TokenStore.update_from_response cachedStore 100 specResp).2.access_token
        = specResp.access_token)
    ∧ ((TokenStore.update_from_response cachedStore 100 specResp).2.refresh_token
        = match specResp.refresh_token with
          | some v => some v
          | none => cachedRec.refresh_token)
    ∧ ((TokenStore.update_from_response cachedStore 100 specResp).2.code_verifier
        = cachedRec.code_verifier)
    ∧ ((TokenStore.update_from_response cachedStore 100 specResp).2.expires_at
        = match specResp.expires_in with
          | some e => some (100 + e)
          | none => none)
    ∧ ((TokenStore.update_from_response cachedStore 100 specResp).2.token_type
        = specResp.token_type.getD "Bearer")
    ∧ ((TokenStore.update_from_response cachedStore 100 specResp).1
        = { cachedStore with
              cache := some (TokenStore.update_from_response cachedStore 100 specResp).2,
              file := some (FileContent.jsonDict
                (TokenStore.update_from_response cachedStore 100 specResp).2.to_dict) }) :=
  ⟨rfl, C2_update_from_response cachedStore cachedRec 100 specResp rfl⟩

/-- C3: refutation at a concrete input — the response supplies
`code_verifier = "X"`, yet the new record keeps the cached `"V0"`: the
server-supplied value does not take precedence for `code_verifier` (the code
never reads that key from the response). -/
theorem C3_counterexample :
    verifierResp.code_verifier = some "X"
    ∧ (TokenStore.update_from_response cachedStore 0 verifierResp).2.code_verifier = some "V0"
    ∧ (TokenStore.update_from_response cachedStore 0 verifierResp).2.code_verifier ≠ some "X" := by
  refine ⟨rfl, rfl, by decide⟩

/-- C3 (amended): for `refresh_token` the claim holds — the new record
inherits the cached value exactly when the response omits the field, and a
server-supplied value takes precedence; `code_verifier`, however, is always
inherited from the cached record, a value supplied by the response being
ignored. -/
theorem C3_refresh_inheritance_amended (st : StoreState) (c : TokenData) (now : Int)
    (resp : OAuthResponse) (h : st.cache = some c) :
    ((TokenStore.update_from_response st now resp).2.refresh_token
        = match resp.refresh_token with
          | some v => some v
          | none => c.refresh_token)
    ∧ ((TokenStore.update_from_response st now resp).2.code_verifier = c.code_verifier) := by
  simp [TokenStore.update_from_response, TokenStore.save, h]

/-- C3 witness: a response supplying both fields — `refresh_token = "R1"`
wins over the cached `"R0"`, while the supplied `code_verifier = "X"` is
ignored in favour of the cached `"V0"`. -/
theorem C3_refresh_inheritance_amended_witness :
    cachedStore.cache = some cachedRec
    ∧ ((TokenStore.update_from_response cachedStore 0 verifierResp).2.refresh_token
        = match verifierResp.refresh_token with
          | some v => some v
          | none => cachedRec.refresh_token)
    ∧ ((TokenStore.update_from_response cachedStore 0 verifierResp).2.code_verifier
        = cachedRec.code_verifier) :=
  ⟨rfl, C3_refresh_inheritance_amended cachedStore cachedRec 0 verifierResp rfl⟩

/-- C10: with the in-memory cache empty, the record built by
`update_from_response` has no `code_verifier` — even when the response map
carries a `code_verifier` entry — and its `refresh_token` is exactly the
response field (absent when the response omits it). -/
theorem C10_empty_cache_never_introduces_verifier (st : StoreState) (now : Int)
    (resp : OAuthResponse) (h : st.cache = none) :
    ((TokenStore.update_from_response st now resp).2.code_verifier = none)
    ∧ ((TokenStore.update_from_response st now resp).2.refresh_token = resp.refresh_token) := by
  cases hr : resp.refresh_token <;>
    simp [TokenStore.update_from_response, TokenStore.save, h, hr]

/-- C10 witness: an empty-cache store and a response that does contain a
`code_verifier` entry — the verifier is still absent from the result. -/
theorem C10_empty_cache_never_introduces_verifier_witness :
    ({ } : StoreState).cache = none
    ∧ verifierResp.code_verifier = some "X"
    ∧ ((TokenStore.update_from_response { } 0 verifierResp).2.code_verifier = none)
    ∧ ((TokenStore.update_from_response { } 0 verifierResp).2.refresh_token
        = verifierResp.refresh_token) :=
  ⟨rfl, rfl,
   (C10_empty_cache_never_introduces_verifier { } 0 verifierResp rfl).1,
   (C10_empty_cache_never_introduces_verifier { } 0 verifierResp rfl).2⟩

/-- C8: saving a record and loading it back yields the same record (and
re-caches it); the sparse serialization carries an optional field exactly
when the record has it, so absent fields are omitted from the file and come
back as their defaults. -/
theorem C8_save_load_roundtrip (st : StoreState) (t : TokenData) :
    TokenStore.load (TokenStore.save st t) = (TokenStore.save st t, some t)
    ∧ dictLookup "refresh_token" t.to_dict = t.refresh_token.map JsonVal.str
    ∧ dictLookup "code_verifier" t.to_dict = t.code_verifier.map JsonVal.str
    ∧ dictLookup "expires_at" t.to_dict = t.expires_at.map JsonVal.num := by
  refine ⟨?_, ?_, ?_, ?_⟩
  · simp [TokenStore.load, TokenStore.save, from_dict_to_dict]
  all_goals
    obtain ⟨a, rt, cv, ea, tt⟩ := t
    cases rt <;> cases cv <;> cases ea <;> simp [TokenData.to_dict, dictLookup]

/-- C9: `load` is total and fails soft — a missing file and unparseable or
non-object content both yield no record and leave the state unchanged — and
deserialization only consults the known dataclass keys, so unknown or extra
fields in a valid JSON object never affect the result. -/
theorem C9_load_fails_soft_unknown_ignored :
    (∀ c : Option TokenData,
      TokenStore.load { file := none, cache := c } = ({ file := none, cache := c }, none))
    ∧ (∀ c : Option TokenData,
      TokenStore.load { file := some FileContent.badJson, cache := c }
        = ({ file := some FileContent.badJson, cache := c }, none))
    ∧ (∀ d : Dict,
      TokenData.from_dict (d.filter fun kv => knownKey kv.1) = TokenData.from_dict d) := by
  refine ⟨fun c => rfl, fun c => rfl, fun d => ?_⟩
  simp [TokenData.from_dict,
    dictLookup_filter_known "access_token" (by decide) d,
    dictLookup_filter_known "refresh_token" (by decide) d,
    dictLookup_filter_known "code_verifier" (by decide) d,
    dictLookup_filter_known "expires_at" (by decide) d,
    dictLookup_filter_known "token_type" (by decide) d]

/-! Helper lemmas about the client. -/

theorem countApiGets_append (l1 l2 : List Event) :
    countApiGets (l1 ++ l2) = countApiGets l1 + countApiGets l2 := by
  simp [countApiGets, List.countP_append]

theorem countRefreshPosts_append (l1 l2 : List Event) :
    countRefreshPosts (l1 ++ l2) = countRefreshPosts l1 + countRefreshPosts l2 := by
  simp [countRefreshPosts, List.countP_append]

theorem countApiGets_single_get (bearer : String) (params : WorkoutParams) :
    countApiGets [Event.apiGet bearer params] = 1 := rfl

theorem countApiGets_single_refresh (b : RefreshBody) :
    countApiGets [Event.refreshPost b] = 0 := rfl

/-- Truthiness of `self.token_data and self.token_data.refresh_token`: the
source fails the refresh precondition exactly when this is `false`. -/
def heldRefreshTokenTruthy (st : ClientState) : Bool :=
  match st.token_data with
  | some td => truthy td.refresh_token
  | none => false

/-- Every run of `refresh_access_token` either fails before any network call
leaving the state untouched, or issues exactly one refresh POST. -/
theorem refresh_access_token_cases (env : Env) (oracle : Oracle) (st : ClientState) (now : Int) :
    refresh_access_token env oracle st now = (false, st)
    ∨ ∃ b : RefreshBody,
        (refresh_access_token env oracle st now).2.trace = st.trace ++ [Event.refreshPost b] := by
  rcases htd : st.token_data with _ | td
  · left; simp [refresh_access_token, htd]
  rcases hrt : td.refresh_token with _ | rt
  · left; simp [refresh_access_token, htd, hrt]
  rcases hre : rt.isEmpty with _ | _
  case true => left; simp [refresh_access_token, htd, hrt, hre]
  rcases hcid : env.client_id with _ | cid
  · left; simp [refresh_access_token, htd, hrt, hre, hcid]
  rcases hce : cid.isEmpty with _ | _
  case true => left; simp [refresh_access_token, htd, hrt, hre, hcid, hce]
  right
  refine ⟨refreshBodyOf cid rt env td, ?_⟩
  rcases hor : oracle.refreshResults (countRefreshPosts st.trace) with b | s | _ <;>
    simp [refresh_access_token, htd, hrt, hre, hcid, hce, hor]

/-- A refresh never issues an API GET: the GET count is unchanged. -/
theorem refresh_access_token_no_get (env : Env) (oracle : Oracle) (st : ClientState) (now : Int) :
    countApiGets (refresh_access_token env oracle st now).2.trace = countApiGets st.trace := by
  rcases refresh_access_token_cases env oracle st now with h | ⟨b, h⟩
  · rw [h]
  · rw [h, countApiGets_append, countApiGets_single_refresh, Nat.add_zero]

/-- A refresh extends the trace (it never removes or reorders events). -/
theorem refresh_access_token_trace_extension (env : Env) (oracle : Oracle) (st : ClientState)
    (now : Int) :
    ∃ ext : List Event, (refresh_access_token env oracle st now).2.trace = st.trace ++ ext := by
  rcases refresh_access_token_cases env oracle st now with h | ⟨b, h⟩
  · exact ⟨[], by simp [h]⟩
  · exact ⟨[Event.refreshPost b], h⟩

/-- A successful refresh issued exactly one refresh POST. -/
theorem refresh_access_token_success_trace (env : Env) (oracle : Oracle) (st : ClientState)
    (now : Int) (h : (refresh_access_token env oracle st now).1 = true) :
    ∃ b : RefreshBody,
      (refresh_access_token env oracle st now).2.trace = st.trace ++ [Event.refreshPost b] := by
  rcases refresh_access_token_cases env oracle st now with heq | hex
  · rw [heq] at h; exact absurd h (by simp)
  · exact hex

/-! Theorems for the claims about the client. -/

/-- C5: the refresh algorithm fails immediately with zero network calls and
an unchanged state when the held record lacks a (truthy) refresh token or
when the OAuth client identifier is not configured; and a non-200 response
or a network exception also yields the boolean `false` to the caller — no
failure escapes the refresh boundary (its Lean type is `Bool`, mirroring the
source where every path `return`s a bool inside the `try`/`except`). -/
theorem C5_refresh_failure_is_boolean (env : Env) (oracle : Oracle) (st : ClientState)
    (now : Int) :
    (heldRefreshTokenTruthy st = false → refresh_access_token env oracle st now = (false, st))
    ∧ (truthy env.client_id = false → refresh_access_token env oracle st now = (false, st))
    ∧ (∀ s : Nat, oracle.refreshResults (countRefreshPosts st.trace) = RefreshOutcome.httpErr s →
        (refresh_access_token env oracle st now).1 = false)
    ∧ (oracle.refreshResults (countRefreshPosts st.trace) = RefreshOutcome.exn →
        (refresh_access_token env oracle st now).1 = false) := by
  refine ⟨fun h => ?_, fun h => ?_, fun s hs => ?_, fun hx => ?_⟩
  · rcases htd : st.token_data with _ | td
    · simp [refresh_access_token, htd]
    · rcases hrt : td.refresh_token with _ | rt
      · simp [refresh_access_token, htd, hrt]
      · have hre : rt.isEmpty = true := by
          simpa [heldRefreshTokenTruthy, htd, hrt, truthy] using h
        simp [refresh_access_token, htd, hrt, hre]
  · rcases htd : st.token_data with _ | td
    · simp [refresh_access_token, htd]
    rcases hrt : td.refresh_token with _ | rt
    · simp [refresh_access_token, htd, hrt]
    rcases hre : rt.isEmpty with _ | _
    case true => simp [refresh_access_token, htd, hrt, hre]
    rcases hcid : env.client_id with _ | cid
    · simp [refresh_access_token, htd, hrt, hre, hcid]
    · have hce : cid.isEmpty = true := by simpa [truthy, hcid] using h
      simp [refresh_access_token, htd, hrt, hre, hcid, hce]
  · rcases htd : st.token_data with _ | td
    · simp [refresh_access_token, htd]
    rcases hrt : td.refresh_token with _ | rt
    · simp [refresh_access_token, htd, hrt]
    rcases hre : rt.isEmpty with _ | _
    case true => simp [refresh_access_token, htd, hrt, hre]
    rcases hcid : env.client_id with _ | cid
    · simp [refresh_access_token, htd, hrt, hre, hcid]
    rcases hce : cid.isEmpty with _ | _
    case true => simp [refresh_access_token, htd, hrt, hre, hcid, hce]
    simp [refresh_access_token, htd, hrt, hre, hcid, hce, hs]
  · rcases htd : st.token_data with _ | td
    · simp [refresh_access_token, htd]
    rcases hrt : td.refresh_token with _ | rt
    · simp [refresh_access_token, htd, hrt]
    rcases hre : rt.isEmpty with _ | _
    case true => simp [refresh_access_token, htd, hrt, hre]
    rcases hcid : env.client_id with _ | cid
    · simp [refresh_access_token, htd, hrt, hre, hcid]
    rcases hce : cid.isEmpty with _ | _
    case true => simp [refresh_access_token, htd, hrt, hre, hcid, hce]
    simp [refresh_access_token, htd, hrt, hre, hcid, hce, hx]

theorem doGet_fst (oracle : Oracle) (s : ClientState) (p : WorkoutParams) :
    (doGet oracle s p).1
      = ⟨oracle.getStatus (countApiGets s.trace), countApiGets s.trace⟩ := rfl

theorem doGet_snd (oracle : Oracle) (s : ClientState) (p : WorkoutParams) :
    (doGet oracle s p).2 = { s with trace := s.trace ++ [Event.apiGet s.headerToken p] } := rfl

theorem doGet_snd_trace (oracle : Oracle) (s : ClientState) (p : WorkoutParams) :
    (doGet oracle s p).2.trace = s.trace ++ [Event.apiGet s.headerToken p] := rfl

/-- Unfolding of `list_workouts` when the first GET does not return 401. -/
theorem list_workouts_eq_of_not401 (env : Env) (oracle : Oracle) (st : ClientState)
    (now page per_page : Int) (sd ed : Option String)
    (h : ¬ (doGet oracle (ensure_valid_token env oracle st now).2
        (buildWorkoutParams page per_page sd ed)).1.status = 401) :
    list_workouts env oracle st now page per_page sd ed
      = (raiseForStatus (doGet oracle (ensure_valid_token env oracle st now).2
            (buildWorkoutParams page per_page sd ed)).1,
         (doGet oracle (ensure_valid_token env oracle st now).2
            (buildWorkoutParams page per_page sd ed)).2) := by
  simp only [list_workouts]
  rw [if_neg h]

/-- Unfolding of `list_workouts` when the first GET returns 401. -/
theorem list_workouts_eq_of_401 (env : Env) (oracle : Oracle) (st : ClientState)
    (now page per_page : Int) (sd ed : Option String)
    (h : (doGet oracle (ensure_valid_token env oracle st now).2
        (buildWorkoutParams page per_page sd ed)).1.status = 401) :
    list_workouts env oracle st now page per_page sd ed
      = match refresh_access_token env oracle
            (doGet oracle (ensure_valid_token env oracle st now).2
              (buildWorkoutParams page per_page sd ed)).2 now with
        | (true, st3) =>
          (raiseForStatus (doGet oracle st3 (buildWorkoutParams page per_page sd ed)).1,
           (doGet oracle st3 (buildWorkoutParams page per_page sd ed)).2)
        | (false, st3) =>
          (Except.error (ApiError.authRefreshFailed
             (doGet oracle (ensure_valid_token env oracle st now).2
               (buildWorkoutParams page per_page sd ed)).1), st3) := by
  simp only [list_workouts]
  rw [if_pos h]

/-! Concrete fixtures for the client witnesses. -/

/-- Fixture: client id configured, no client secret. -/
def envOk : Env := { client_id := some "cid" }

/-- Fixture: no client id configured. -/
def envNoId : Env := { }

/-- Fixture: a confidential-client environment. -/
def envSecret : Env := { client_id := some "cid", client_secret := some "sec" }

/-- Fixture: a client holding the cached record, fresh trace. -/
def csOk : ClientState :=
  { token_data := some cachedRec, store := cachedStore, headerToken := "A0", trace := [] }

/-- Fixture: a client whose record has no refresh token. -/
def csNoRt : ClientState :=
  { token_data := some { access_token := "A" }, store := { }, headerToken := "A", trace := [] }

/-- Fixture: a public-client record without a code verifier. -/
def tdPk : TokenData := { access_token := "A", refresh_token := some "R0" }

/-- Fixture: a client holding `tdPk`. -/
def csPk : ClientState :=
  { token_data := some tdPk, store := { }, headerToken := "A", trace := [] }

/-- Fixture: a record that expired long before `now = 1000`. -/
def tdExp : TokenData :=
  { access_token := "A", refresh_token := some "R0", expires_at := some 100 }

/-- Fixture: a client holding the expired record `tdExp`. -/
def csExp : ClientState :=
  { token_data := some tdExp, store := { }, headerToken := "A", trace := [] }

/-- Fixture: every refresh POST is rejected with a 500. -/
def orErr : Oracle :=
  { refreshResults := fun _ => RefreshOutcome.httpErr 500, getStatus := fun _ => 200 }

/-- Fixture: every refresh POST raises; GETs succeed. -/
def orExn : Oracle :=
  { refreshResults := fun _ => RefreshOutcome.exn, getStatus := fun _ => 200 }

/-- Fixture: every refresh POST raises; every GET returns 401. -/
def orExn401 : Oracle :=
  { refreshResults := fun _ => RefreshOutcome.exn, getStatus := fun _ => 401 }

/-- Fixture: refreshes succeed; the first GET returns 401, later ones 200. -/
def orOk401 : Oracle :=
  { refreshResults := fun _ => RefreshOutcome.ok specResp,
    getStatus := fun n => if n = 0 then 401 else 200 }

/-- C5 witness: a record lacking a refresh token and a missing client id
each fail with the state (hence the trace, hence the call count) unchanged;
a 500 refresh response and a refresh exception each yield `false`. -/
theorem C5_refresh_failure_is_boolean_witness :
    heldRefreshTokenTruthy csNoRt = false
    ∧ refresh_access_token envOk orErr csNoRt 0 = (false, csNoRt)
    ∧ truthy envNoId.client_id = false
    ∧ refresh_access_token envNoId orErr csOk 0 = (false, csOk)
    ∧ orErr.refreshResults (countRefreshPosts csOk.trace) = RefreshOutcome.httpErr 500
    ∧ (refresh_access_token envOk orErr csOk 0).1 = false
    ∧ orExn.refreshResults (countRefreshPosts csOk.trace) = RefreshOutcome.exn
    ∧ (refresh_access_token envOk orExn csOk 0).1 = false :=
  ⟨rfl, (C5_refresh_failure_is_boolean envOk orErr csNoRt 0).1 rfl,
   rfl, (C5_refresh_failure_is_boolean envNoId orErr csOk 0).2.1 rfl,
   rfl, (C5_refresh_failure_is_boolean envOk orErr csOk 0).2.2.1 500 rfl,
   rfl, (C5_refresh_failure_is_boolean envOk orExn csOk 0).2.2.2 rfl⟩

/-- C6: once the preconditions pass, the refresh POST is issued with the
body built by `refreshBodyOf` — in every outcome branch, including the
neither-credential case, so there is no local hard failure — and that body
attaches the client secret exactly when one is configured (the record's
verifier then being omitted), else the record's code verifier exactly when
the record has one, else neither; the two supplements are never both
attached. -/
theorem C6_refresh_body_policy (env : Env) (oracle : Oracle) (st : ClientState) (now : Int)
    (td : TokenData) (rt cid : String)
    (h1 : st.token_data = some td) (h2 : td.refresh_token = some rt)
    (h3 : rt.isEmpty = false) (h4 : env.client_id = some cid) (h5 : cid.isEmpty = false) :
    ((refresh_access_token env oracle st now).2.trace
        = st.trace ++ [Event.refreshPost (refreshBodyOf cid rt env td)])
    ∧ (refreshBodyOf cid rt env td).client_id = cid
    ∧ (refreshBodyOf cid rt env td).grant_type = "refresh_token"
    ∧ (refreshBodyOf cid rt env td).refresh_token = rt
    ∧ (truthy env.client_secret = true →
        (refreshBodyOf cid rt env td).client_secret = env.client_secret
        ∧ (refreshBodyOf cid rt env td).code_verifier = none)
    ∧ (truthy env.client_secret = false → truthy td.code_verifier = true →
        (refreshBodyOf cid rt env td).code_verifier = td.code_verifier
        ∧ (refreshBodyOf cid rt env td).client_secret = none)
    ∧ (truthy env.client_secret = false → truthy td.code_verifier = false →
        (refreshBodyOf cid rt env td).client_secret = none
        ∧ (refreshBodyOf cid rt env td).code_verifier = none)
    ∧ ¬((refreshBodyOf cid rt env td).client_secret ≠ none
        ∧ (refreshBodyOf cid rt env td).code_verifier ≠ none) := by
  refine ⟨?_, rfl, rfl, rfl, fun hs => ?_, fun hs hv => ?_, fun hs hv => ?_, ?_⟩
  · rcases hor : oracle.refreshResults (countRefreshPosts st.trace) with b | s | _ <;>
      simp [refresh_access_token, h1, h2, h3, h4, h5, hor]
  · simp [refreshBodyOf, hs]
  · simp [refreshBodyOf, hs, hv]
  · simp [refreshBodyOf, hs, hv]
  · rcases hs : truthy env.client_secret with _ | _ <;>
      simp [refreshBodyOf, hs]

/-- C6 witness: the neither-credential case — no secret configured, no
verifier on the record — still issues the POST, with both supplements
absent; and the confidential-client case attaches the secret only. -/
theorem C6_refresh_body_policy_witness :
    csPk.token_data = some tdPk ∧ tdPk.refresh_token = some "R0"
    ∧ "R0".isEmpty = false ∧ envOk.client_id = some "cid" ∧ "cid".isEmpty = false
    ∧ ((refresh_access_token envOk orExn csPk 0).2.trace
        = csPk.trace ++ [Event.refreshPost (refreshBodyOf "cid" "R0" envOk tdPk)])
    ∧ (truthy envOk.client_secret = false → truthy tdPk.code_verifier = false →
        (refreshBodyOf "cid" "R0" envOk tdPk).client_secret = none
        ∧ (refreshBodyOf "cid" "R0" envOk tdPk).code_verifier = none)
    ∧ truthy envSecret.client_secret = true
    ∧ (truthy envSecret.client_secret = true →
        (refreshBodyOf "cid" "R0" envSecret cachedRec).client_secret = envSecret.client_secret
        ∧ (refreshBodyOf "cid" "R0" envSecret cachedRec).code_verifier = none) :=
  ⟨rfl, rfl, rfl, rfl, rfl,
   (C6_refresh_body_policy envOk orExn csPk 0 tdPk "R0" "cid" rfl rfl rfl rfl rfl).1,
   (C6_refresh_body_policy envOk orExn csPk 0 tdPk "R0" "cid" rfl rfl rfl rfl rfl).2.2.2.2.2.2.1,
   rfl,
   (C6_refresh_body_policy envSecret orExn csOk 0 cachedRec "R0" "cid" rfl rfl rfl rfl rfl).2.2.2.2.1⟩

/-- C7: before the request, `_ensure_valid_token` runs — with a cached
record that `is_expired` under the 300-second buffer it is exactly a run of
the refresh algorithm — and whatever that proactive step returned (the
source discards its boolean), the GET is issued next with the bearer token
the client holds at that point; a proactive-refresh failure alone never
aborts the request. -/
theorem C7_proactive_refresh_never_blocks (env : Env) (oracle : Oracle) (st : ClientState)
    (now page per_page : Int) (sd ed : Option String) (td : TokenData)
    (h : st.token_data = some td) :
    (td.is_expired now 300 = true →
      ensure_valid_token env oracle st now = refresh_access_token env oracle st now)
    ∧ ∃ rest : List Event,
        (list_workouts env oracle st now page per_page sd ed).2.trace
          = (ensure_valid_token env oracle st now).2.trace
            ++ [Event.apiGet (ensure_valid_token env oracle st now).2.headerToken
                 (buildWorkoutParams page per_page sd ed)] ++ rest := by
  constructor
  · intro hexp
    simp [ensure_valid_token, h, hexp]
  · by_cases h401 : (doGet oracle (ensure_valid_token env oracle st now).2
        (buildWorkoutParams page per_page sd ed)).1.status = 401
    · rw [list_workouts_eq_of_401 env oracle st now page per_page sd ed h401]
      obtain ⟨ext, hext⟩ := refresh_access_token_trace_extension env oracle
        (doGet oracle (ensure_valid_token env oracle st now).2
          (buildWorkoutParams page per_page sd ed)).2 now
      rcases hr : refresh_access_token env oracle
          (doGet oracle (ensure_valid_token env oracle st now).2
            (buildWorkoutParams page per_page sd ed)).2 now with ⟨ok, st3⟩
      rw [hr] at hext
      dsimp only at hext
      cases ok
      · refine ⟨ext, ?_⟩
        dsimp only
        rw [hext, doGet_snd_trace]
      · refine ⟨ext ++ [Event.apiGet st3.headerToken
            (buildWorkoutParams page per_page sd ed)], ?_⟩
        dsimp only
        rw [doGet_snd_trace, hext, doGet_snd_trace]
        simp
    · rw [list_workouts_eq_of_not401 env oracle st now page per_page sd ed h401]
      exact ⟨[], by simp [doGet_snd_trace]⟩

/-- C7 witness: a client whose cached record expired long ago, against an
environment where the refresh POST raises — the proactive step equals a
(failed) refresh run, and the GET is still issued right after it. -/
theorem C7_proactive_refresh_never_blocks_witness :
    csExp.token_data = some tdExp
    ∧ tdExp.is_expired 1000 300 = true
    ∧ ensure_valid_token envOk orExn csExp 1000 = refresh_access_token envOk orExn csExp 1000
    ∧ ∃ rest : List Event,
        (list_workouts envOk orExn csExp 1000 1 30 none none).2.trace
          = (ensure_valid_token envOk orExn csExp 1000).2.trace
            ++ [Event.apiGet (ensure_valid_token envOk orExn csExp 1000).2.headerToken
                 (buildWorkoutParams 1 30 none none)] ++ rest :=
  ⟨rfl, by decide,
   (C7_proactive_refresh_never_blocks envOk orExn csExp 1000 1 30 none none tdExp rfl).1
     (by decide),
   (C7_proactive_refresh_never_blocks envOk orExn csExp 1000 1 30 none none tdExp rfl).2⟩

/-- C1: when the first GET of `list_workouts` returns 401, the refresh
algorithm runs once; if it succeeds the identical request (same parameters)
is reissued exactly once and its `raise_for_status` outcome is final — the
trace ends with that single retry, whatever its status — and if it fails an
authentication-failure error wrapping the original 401 response is raised
with no retry issued (the GET count stays at one). -/
theorem C1_reactive_401_refresh_retry (env : Env) (oracle : Oracle) (st : ClientState)
    (now page per_page : Int) (sd ed : Option String)
    (h401 : (doGet oracle (ensure_valid_token env oracle st now).2
        (buildWorkoutParams page per_page sd ed)).1.status = 401) :
    ((refresh_access_token env oracle
        (doGet oracle (ensure_valid_token env oracle st now).2
          (buildWorkoutParams page per_page sd ed)).2 now).1 = true →
      (∃ b : RefreshBody,
        (list_workouts env oracle st now page per_page sd ed).2.trace
          = (ensure_valid_token env oracle st now).2.trace
            ++ [Event.apiGet (ensure_valid_token env oracle st now).2.headerToken
                  (buildWorkoutParams page per_page sd ed),
                Event.refreshPost b,
                Event.apiGet (refresh_access_token env oracle
                    (doGet oracle (ensure_valid_token env oracle st now).2
                      (buildWorkoutParams page per_page sd ed)).2 now).2.headerToken
                  (buildWorkoutParams page per_page sd ed)])
      ∧ (list_workouts env oracle st now page per_page sd ed).1
          = raiseForStatus (doGet oracle
              (refresh_access_token env oracle
                (doGet oracle (ensure_valid_token env oracle st now).2
                  (buildWorkoutParams page per_page sd ed)).2 now).2
              (buildWorkoutParams page per_page sd ed)).1
      ∧ countApiGets (list_workouts env oracle st now page per_page sd ed).2.trace
          = countApiGets (ensure_valid_token env oracle st now).2.trace + 2)
    ∧ ((refresh_access_token env oracle
        (doGet oracle (ensure_valid_token env oracle st now).2
          (buildWorkoutParams page per_page sd ed)).2 now).1 = false →
      (list_workouts env oracle st now page per_page sd ed).1
        = Except.error (ApiError.authRefreshFailed
            (doGet oracle (ensure_valid_token env oracle st now).2
              (buildWorkoutParams page per_page sd ed)).1)
      ∧ (list_workouts env oracle st now page per_page sd ed).2
        = (refresh_access_token env oracle
            (doGet oracle (ensure_valid_token env oracle st now).2
              (buildWorkoutParams page per_page sd ed)).2 now).2
      ∧ countApiGets (list_workouts env oracle st now page per_page sd ed).2.trace
        = countApiGets (ensure_valid_token env oracle st now).2.trace + 1) := by
  rw [list_workouts_eq_of_401 env oracle st now page per_page sd ed h401]
  have hng := refresh_access_token_no_get env oracle
    (doGet oracle (ensure_valid_token env oracle st now).2
      (buildWorkoutParams page per_page sd ed)).2 now
  have hsuc := refresh_access_token_success_trace env oracle
    (doGet oracle (ensure_valid_token env oracle st now).2
      (buildWorkoutParams page per_page sd ed)).2 now
  rcases hr : refresh_access_token env oracle
      (doGet oracle (ensure_valid_token env oracle st now).2
        (buildWorkoutParams page per_page sd ed)).2 now with ⟨ok, st3⟩
  rw [hr] at hng hsuc
  dsimp only at hng
  cases ok
  · refine ⟨fun htrue => absurd htrue (by simp), fun _ => ⟨rfl, rfl, ?_⟩⟩
    dsimp only
    rw [hng, doGet_snd_trace, countApiGets_append, countApiGets_single_get]
  · refine ⟨fun _ => ?_, fun hfalse => absurd hfalse (by simp)⟩
    obtain ⟨b, hb⟩ := hsuc rfl
    dsimp only at hb
    refine ⟨⟨b, ?_⟩, rfl, ?_⟩
    · dsimp only
      rw [doGet_snd_trace, hb, doGet_snd_trace]
      simp
    · dsimp only
      rw [doGet_snd_trace, countApiGets_append, countApiGets_single_get, hb,
        countApiGets_append, countApiGets_single_refresh, doGet_snd_trace,
        countApiGets_append, countApiGets_single_get]

/-- C1 witness: against `orOk401` (first GET 401, refresh succeeds, retry
200) the retried outcome is final with two GETs and one refresh POST; and
against `orExn401` (refresh raises) the caller gets the
authentication-failure error wrapping the original 401 response with the
GET count still one. -/
theorem C1_reactive_401_refresh_retry_witness :
    (doGet orOk401 (ensure_valid_token envOk orOk401 csOk 0).2
        (buildWorkoutParams 1 30 none none)).1.status = 401
    ∧ (refresh_access_token envOk orOk401
        (doGet orOk401 (ensure_valid_token envOk orOk401 csOk 0).2
          (buildWorkoutParams 1 30 none none)).2 0).1 = true
    ∧ ((∃ b : RefreshBody,
        (list_workouts envOk orOk401 csOk 0 1 30 none none).2.trace
          = (ensure_valid_token envOk orOk401 csOk 0).2.trace
            ++ [Event.apiGet (ensure_valid_token envOk orOk401 csOk 0).2.headerToken
                  (buildWorkoutParams 1 30 none none),
                Event.refreshPost b,
                Event.apiGet (refresh_access_token envOk orOk401
                    (doGet orOk401 (ensure_valid_token envOk orOk401 csOk 0).2
                      (buildWorkoutParams 1 30 none none)).2 0).2.headerToken
                  (buildWorkoutParams 1 30 none none)])
      ∧ (list_workouts envOk orOk401 csOk 0 1 30 none none).1
          = raiseForStatus (doGet orOk401
              (refresh_access_token envOk orOk401
                (doGet orOk401 (ensure_valid_token envOk orOk401 csOk 0).2
                  (buildWorkoutParams 1 30 none none)).2 0).2
              (buildWorkoutParams 1 30 none none)).1
      ∧ countApiGets (list_workouts envOk orOk401 csOk 0 1 30 none none).2.trace
          = countApiGets (ensure_valid_token envOk orOk401 csOk 0).2.trace + 2)
    ∧ (doGet orExn401 (ensure_valid_token envOk orExn401 csOk 0).2
        (buildWorkoutParams 1 30 none none)).1.status = 401
    ∧ (refresh_access_token envOk orExn401
        (doGet orExn401 (ensure_valid_token envOk orExn401 csOk 0).2
          (buildWorkoutParams 1 30 none none)).2 0).1 = false
    ∧ ((list_workouts envOk orExn401 csOk 0 1 30 none none).1
        = Except.error (ApiError.authRefreshFailed
            (doGet orExn401 (ensure_valid_token envOk orExn401 csOk 0).2
              (buildWorkoutParams 1 30 none none)).1)
      ∧ (list_workouts envOk orExn401 csOk 0 1 30 none none).2
        = (refresh_access_token envOk orExn401
            (doGet orExn401 (ensure_valid_token envOk orExn401 csOk 0).2
              (buildWorkoutParams 1 30 none none)).2 0).2
      ∧ countApiGets (list_workouts envOk orExn401 csOk 0 1 30 none none).2.trace
        = countApiGets (ensure_valid_token envOk orExn401 csOk 0).2.trace + 1) :=
  ⟨rfl, rfl,
   (C1_reactive_401_refresh_retry envOk orOk401 csOk 0 1 30 none none rfl).1 rfl,
   rfl, rfl,
   (C1_reactive_401_refresh_retry envOk orExn401 csOk 0 1 30 none none rfl).2 rfl⟩

end WahooMcp
